import Mathlib

/-!
Verification of the API-Monitor Go agent (src/agent-go) against its
natural-language specification.

The development shallowly embeds the parts of `collector.go` and `main.go`
that the specification's testable properties talk about:

* the network-speed computation inside `Collector.CollectState`
  (collector.go, full variant, lines 488-509);
* the GPU sampling throttle inside `Collector.CollectState`
  (lines 546-557) and `collectGPUState` (lines 697-744);
* `collectDockerInfo` (lines 562-625);
* the connection manager of `main.go`: `connect`, `dial`, `emit`,
  `handleEvent`, `reportState`, `reportLoop`, `handleTask`;
* the server-side memory-metrics parser
  (`modules/server-management/agent-service.js`, `processMetrics`).

Machine integers are modelled as `Nat`/`Int`; Go `time.Time` values are
modelled as integer millisecond timestamps; `float64` arithmetic on the
few places where it occurs (network speed division, JS percentage
rounding) is modelled by exact rational arithmetic with the final
truncation/rounding made explicit.
-/

/-! ## Network speed (collector.go, CollectState lines 488-509) -/

/-- The `Collector` fields that the network-speed block reads and writes:
`lastNetRx`, `lastNetTx` (cumulative byte counters of the previous sample)
and `lastNetTime` (modelled as a millisecond Unix timestamp). -/
structure NetCache where
  lastNetRx : Nat
  lastNetTx : Nat
  lastNetTimeMs : Int
  deriving DecidableEq, Repr

/-- The two speed fields of the freshly built `State` value. A fresh
`State` starts with both fields at their zero default. -/
structure NetSpeedResult where
  netInSpeed : Nat
  netOutSpeed : Nat
  deriving DecidableEq, Repr

/-- Model of `uint64(float64(delta) / elapsed)` where `elapsed` is the
elapsed time in seconds (`elapsedMs / 1000` as an exact rational) and the
`uint64` conversion truncates the nonnegative quotient toward zero. -/
def netSpeedOfFloat (delta elapsedMs : Nat) : Nat :=
  Nat.floor ((delta : ℚ) / ((elapsedMs : ℚ) / 1000))

/-- The network-speed block of `CollectState`: given the previous cache and
the freshly read cumulative counters `rx`, `tx` at time `nowMs`, produce the
speed fields of the new `State` and the updated cache.  The guard mirrors
`elapsed > 0 && c.lastNetTime.Unix() > 0` (at millisecond granularity,
`Unix() > 0` is `1000 ≤ lastNetTimeMs`); each speed field is assigned only
when its counter did not go backwards, and the cache is updated
unconditionally afterwards. -/
def collectNetSpeed (cache : NetCache) (rx tx : Nat) (nowMs : Int) :
    NetSpeedResult × NetCache :=
  let elapsedMs : Int := nowMs - cache.lastNetTimeMs
  let inSpeed : Nat :=
    if 0 < elapsedMs ∧ 1000 ≤ cache.lastNetTimeMs then
      if cache.lastNetRx ≤ rx then
        netSpeedOfFloat (rx - cache.lastNetRx) elapsedMs.toNat
      else 0
    else 0
  let outSpeed : Nat :=
    if 0 < elapsedMs ∧ 1000 ≤ cache.lastNetTimeMs then
      if cache.lastNetTx ≤ tx then
        netSpeedOfFloat (tx - cache.lastNetTx) elapsedMs.toNat
      else 0
    else 0
  (⟨inSpeed, outSpeed⟩, ⟨rx, tx, nowMs⟩)

/-- The truncated float division computed by the code coincides with the
integer formula `delta * 1000 / elapsedMs` of the specification. -/
theorem netSpeedOfFloat_eq (d m : Nat) :
    netSpeedOfFloat d m = d * 1000 / m := by
  unfold netSpeedOfFloat
  rw [div_div_eq_mul_div]
  have h : ((d : ℚ) * 1000) = ((d * 1000 : ℕ) : ℚ) := by push_cast; ring
  rw [h, Nat.floor_div_nat, Nat.floor_natCast]

/-- C1: with `current >= previous` and positive elapsed time (and a valid
previous timestamp, as the code additionally requires), the reported speed
is `(current - previous) * 1000 / elapsedMillis`, and on a counter reset
(`current < previous`) the reported speed is `0`, never negative; this
holds for both the inbound and the outbound counter. -/
theorem c1_net_speed_formula (cache : NetCache) (rx tx : Nat) (nowMs : Int)
    (h1 : 0 < nowMs - cache.lastNetTimeMs) (h2 : 1000 ≤ cache.lastNetTimeMs) :
    ((cache.lastNetRx ≤ rx →
        ((collectNetSpeed cache rx tx nowMs).1).netInSpeed
          = (rx - cache.lastNetRx) * 1000 / (nowMs - cache.lastNetTimeMs).toNat) ∧
      (rx < cache.lastNetRx →
        ((collectNetSpeed cache rx tx nowMs).1).netInSpeed = 0)) ∧
    ((cache.lastNetTx ≤ tx →
        ((collectNetSpeed cache rx tx nowMs).1).netOutSpeed
          = (tx - cache.lastNetTx) * 1000 / (nowMs - cache.lastNetTimeMs).toNat) ∧
      (tx < cache.lastNetTx →
        ((collectNetSpeed cache rx tx nowMs).1).netOutSpeed = 0)) := by
  unfold collectNetSpeed
  simp only [if_pos (And.intro h1 h2)]
  refine ⟨⟨fun hin => ?_, fun hin => ?_⟩, ⟨fun hout => ?_, fun hout => ?_⟩⟩
  · simp only [if_pos hin, netSpeedOfFloat_eq]
  · simp only [if_neg (by omega : ¬ cache.lastNetRx ≤ rx)]
  · simp only [if_pos hout, netSpeedOfFloat_eq]
  · simp only [if_neg (by omega : ¬ cache.lastNetTx ≤ tx)]

/-- Witness for C1 at a concrete input: previous counters (1000, 3000) at
time 1000000 ms, current counters (1500, 2000) at 1001000 ms; the inbound
delta 500 over 1000 ms gives 500 bytes/s, the outbound counter went
backwards and gives 0. -/
theorem c1_net_speed_formula_witness :
    (0 < (1001000 : Int) - (NetCache.mk 1000 3000 1000000).lastNetTimeMs ∧
      1000 ≤ (NetCache.mk 1000 3000 1000000).lastNetTimeMs) ∧
    (((NetCache.mk 1000 3000 1000000).lastNetRx ≤ 1500 →
        ((collectNetSpeed (NetCache.mk 1000 3000 1000000) 1500 2000 1001000).1).netInSpeed
          = (1500 - (NetCache.mk 1000 3000 1000000).lastNetRx) * 1000 /
              ((1001000 : Int) - (NetCache.mk 1000 3000 1000000).lastNetTimeMs).toNat) ∧
      (1500 < (NetCache.mk 1000 3000 1000000).lastNetRx →
        ((collectNetSpeed (NetCache.mk 1000 3000 1000000) 1500 2000 1001000).1).netInSpeed = 0)) ∧
    (((NetCache.mk 1000 3000 1000000).lastNetTx ≤ 2000 →
        ((collectNetSpeed (NetCache.mk 1000 3000 1000000) 1500 2000 1001000).1).netOutSpeed
          = (2000 - (NetCache.mk 1000 3000 1000000).lastNetTx) * 1000 /
              ((1001000 : Int) - (NetCache.mk 1000 3000 1000000).lastNetTimeMs).toNat) ∧
      (2000 < (NetCache.mk 1000 3000 1000000).lastNetTx →
        ((collectNetSpeed (NetCache.mk 1000 3000 1000000) 1500 2000 1001000).1).netOutSpeed = 0)) :=
  ⟨by constructor <;> decide,
    c1_net_speed_formula (NetCache.mk 1000 3000 1000000) 1500 2000 1001000
      (by decide) (by decide)⟩

/-- The cache produced by a first sample: previous counters 0/0 at time
1000000 ms, current counters 1500/0 read at 1001000 ms. -/
def netCacheAfterFirstSample : NetCache :=
  (collectNetSpeed (NetCache.mk 0 0 1000000) 1500 0 1001000).2

/-- C5 counterexample: the first sample (delta 1500 bytes over 1000 ms)
reports an inbound speed of 1500 bytes/s; a second sample taken at the
very same timestamp (elapsed = 0) reports 0, not the previous sample's
value 1500 — the fresh `State` value's zero default is kept, refuting the
claim that the speed is "left at its previous value". -/
theorem c5_counterexample_speed_not_previous :
    ((collectNetSpeed (NetCache.mk 0 0 1000000) 1500 0 1001000).1).netInSpeed = 1500 ∧
    netCacheAfterFirstSample.lastNetTimeMs = 1001000 ∧
    ((collectNetSpeed netCacheAfterFirstSample 2000 0 1001000).1).netInSpeed = 0 ∧
    ((collectNetSpeed netCacheAfterFirstSample 2000 0 1001000).1).netInSpeed ≠
      ((collectNetSpeed (NetCache.mk 0 0 1000000) 1500 0 1001000).1).netInSpeed := by
  have h1 : ((collectNetSpeed (NetCache.mk 0 0 1000000) 1500 0 1001000).1).netInSpeed
      = 1500 := by
    show (if (0 : Int) < 1001000 - 1000000 ∧ (1000 : Int) ≤ 1000000 then
        if 0 ≤ 1500 then netSpeedOfFloat (1500 - 0) ((1001000 - 1000000 : Int)).toNat
        else 0 else 0) = 1500
    rw [if_pos (by constructor <;> decide), if_pos (by decide), netSpeedOfFloat_eq]
    decide
  have h2 : ((collectNetSpeed netCacheAfterFirstSample 2000 0 1001000).1).netInSpeed
      = 0 := by
    show (if (0 : Int) < 1001000 - 1001000 ∧ (1000 : Int) ≤ 1001000 then
        if 1500 ≤ 2000 then netSpeedOfFloat (2000 - 1500) ((1001000 - 1001000 : Int)).toNat
        else 0 else 0) = 0
    rw [if_neg (by intro h; exact absurd h.1 (by decide))]
  exact ⟨h1, rfl, h2, by rw [h1, h2]; decide⟩

/-- C5 amended: when the elapsed time since the previous sample is not
positive (or the previous timestamp is invalid), the speed fields of the
freshly built `State` keep their zero default — the sample reports speed 0,
neither recomputed from the counters nor carried over from the previous
sample. -/
theorem c5_zero_elapsed_keeps_zero_default (cache : NetCache) (rx tx : Nat)
    (nowMs : Int) (h : nowMs - cache.lastNetTimeMs ≤ 0) :
    ((collectNetSpeed cache rx tx nowMs).1).netInSpeed = 0 ∧
    ((collectNetSpeed cache rx tx nowMs).1).netOutSpeed = 0 := by
  unfold collectNetSpeed
  have hg : ¬ (0 < nowMs - cache.lastNetTimeMs ∧ 1000 ≤ cache.lastNetTimeMs) := by
    intro hc; omega
  simp [if_neg hg]
  constructor <;> (intro hlt; omega)

/-- Witness for the amended C5 at a concrete input: a second sample taken
at the same millisecond as the previous one reports speed 0. -/
theorem c5_zero_elapsed_keeps_zero_default_witness :
    ((1001000 : Int) - netCacheAfterFirstSample.lastNetTimeMs ≤ 0) ∧
    (((collectNetSpeed netCacheAfterFirstSample 2000 0 1001000).1).netInSpeed = 0 ∧
      ((collectNetSpeed netCacheAfterFirstSample 2000 0 1001000).1).netOutSpeed = 0) :=
  ⟨by decide,
    c5_zero_elapsed_keeps_zero_default netCacheAfterFirstSample 2000 0 1001000 (by decide)⟩

/-! ## GPU sampling throttle (collector.go, CollectState lines 546-557) -/

/-- One GPU reading: average utilization, VRAM bytes used, total power
draw.  The float fields are carried as exact rationals; the throttle logic
never computes with them. -/
structure GPUSample where
  usage : ℚ
  memUsed : Nat
  power : ℚ
  deriving DecidableEq

/-- The `Collector` fields backing the GPU throttle: the last sampled
values and the timestamp (ms) of the last actual `collectGPUState` call. -/
structure GPUCache where
  lastGPUUsage : ℚ
  lastGPUMemUsed : Nat
  lastGPUPower : ℚ
  lastGPUTimeMs : Int
  deriving DecidableEq

/-- The sample a cache currently holds. -/
def gpuCachedSample (c : GPUCache) : GPUSample :=
  ⟨c.lastGPUUsage, c.lastGPUMemUsed, c.lastGPUPower⟩

/-- The throttle guard `time.Since(c.lastGPUTime) > 5*time.Second`. -/
def gpuThrottleExpired (c : GPUCache) (nowMs : Int) : Bool :=
  5000 < nowMs - c.lastGPUTimeMs

/-- The GPU block of one `CollectState` call at time `nowMs`: when the
throttle window has expired the underlying `collectGPUState` reading
`query` is stored in the cache together with the current time, otherwise
nothing is queried; the `State` fields are then filled from the cache. -/
def gpuStep (c : GPUCache) (nowMs : Int) (query : GPUSample) :
    GPUSample × GPUCache :=
  if gpuThrottleExpired c nowMs then
    let c' : GPUCache := ⟨query.usage, query.memUsed, query.power, nowMs⟩
    (gpuCachedSample c', c')
  else (gpuCachedSample c, c)

/-- Number of actual underlying GPU queries performed over a sequence of
`CollectState` calls, each given as (time of call, reading the driver
would return). -/
def gpuRunCount : GPUCache → List (Int × GPUSample) → Nat
  | _, [] => 0
  | c, (t, q) :: rest =>
    (if gpuThrottleExpired c t then 1 else 0) + gpuRunCount (gpuStep c t q).2 rest

/-- Cache left behind by a sequence of `CollectState` calls. -/
def gpuRunFinal : GPUCache → List (Int × GPUSample) → GPUCache
  | c, [] => c
  | c, (t, q) :: rest => gpuRunFinal (gpuStep c t q).2 rest

/-- Each actual query pushes the cache timestamp forward by strictly more
than 5000 ms: after `k` queries the final timestamp is at least the
initial one plus `5001 * k`. -/
theorem gpuRun_timestamp_lower_bound (calls : List (Int × GPUSample))
    (c : GPUCache) :
    c.lastGPUTimeMs + 5001 * gpuRunCount c calls ≤
      (gpuRunFinal c calls).lastGPUTimeMs := by
  induction calls generalizing c with
  | nil => simp [gpuRunCount, gpuRunFinal]
  | cons p rest ih =>
    obtain ⟨t, q⟩ := p
    by_cases hq : gpuThrottleExpired c t = true
    · have ht : 5000 < t - c.lastGPUTimeMs := by
        simpa [gpuThrottleExpired] using hq
      have hstep : (gpuStep c t q).2 = ⟨q.usage, q.memUsed, q.power, t⟩ := by
        simp [gpuStep, hq]
      have := ih ((gpuStep c t q).2)
      rw [hstep] at this
      simp only [gpuRunCount, gpuRunFinal, hstep, if_pos hq]
      have hc : gpuRunCount (⟨q.usage, q.memUsed, q.power, t⟩ : GPUCache) rest
          = gpuRunCount (gpuStep c t q).2 rest := by rw [hstep]
      rw [hc]
      have h2 := ih ((gpuStep c t q).2)
      rw [hstep] at h2
      simp only [GPUCache.lastGPUTimeMs] at h2 ⊢
      omega
    · have hstep : (gpuStep c t q).2 = c := by
        simp [gpuStep, hq]
      simp only [gpuRunCount, gpuRunFinal, hstep, if_neg hq]
      have := ih c
      omega

/-- The final cache timestamp never exceeds the larger of the initial
timestamp and the latest call time. -/
theorem gpuRun_timestamp_upper_bound (calls : List (Int × GPUSample))
    (c : GPUCache) (M : Int) (hc : c.lastGPUTimeMs ≤ M)
    (hM : ∀ p ∈ calls, p.1 ≤ M) :
    (gpuRunFinal c calls).lastGPUTimeMs ≤ M := by
  induction calls generalizing c with
  | nil => simpa [gpuRunFinal] using hc
  | cons p rest ih =>
    obtain ⟨t, q⟩ := p
    have ht : t ≤ M := hM (t, q) (List.mem_cons_self _ _)
    have hrest : ∀ p ∈ rest, p.1 ≤ M := fun p hp => hM p (List.mem_cons_of_mem _ hp)
    by_cases hq : gpuThrottleExpired c t = true
    · have hstep : (gpuStep c t q).2 = ⟨q.usage, q.memUsed, q.power, t⟩ := by
        simp [gpuStep, hq]
      simp only [gpuRunFinal, hstep]
      exact ih _ ht hrest
    · have hstep : (gpuStep c t q).2 = c := by simp [gpuStep, hq]
      simp only [gpuRunFinal, hstep]
      exact ih _ hc hrest

/-- Calls all falling within 5000 ms of the cache timestamp trigger no
underlying query at all: one query per throttle window at most. -/
theorem gpuRunCount_zero_within_window (calls : List (Int × GPUSample))
    (c : GPUCache) (h : ∀ p ∈ calls, p.1 ≤ c.lastGPUTimeMs + 5000) :
    gpuRunCount c calls = 0 := by
  induction calls generalizing c with
  | nil => rfl
  | cons p rest ih =>
    obtain ⟨t, q⟩ := p
    have ht : t ≤ c.lastGPUTimeMs + 5000 := h (t, q) (List.mem_cons_self _ _)
    have hq : gpuThrottleExpired c t = false := by
      simp only [gpuThrottleExpired, decide_eq_false_iff_not]
      omega
    have hstep : (gpuStep c t q).2 = c := by simp [gpuStep, hq]
    simp only [gpuRunCount, hstep, hq, if_neg]
    simp only [Bool.false_eq_true, if_false, Nat.zero_add]
    exact ih c (fun p hp => h p (List.mem_cons_of_mem _ hp))

/-- C2: the GPU sampling inside `CollectState` is throttled — (a) over any
sequence of calls within 30 seconds of the cache timestamp at most 6
underlying `collectGPUState` queries happen, however many calls there are;
(b) calls within a single 5-second window after a query trigger no further
query; (c) a call for which the throttle window has not expired returns
the cached sample and leaves the cache (utilization, VRAM used, power,
timestamp) unchanged. -/
theorem c2_gpu_throttled (c : GPUCache) (calls : List (Int × GPUSample))
    (hM : ∀ p ∈ calls, p.1 ≤ c.lastGPUTimeMs + 30000) :
    gpuRunCount c calls ≤ 6 ∧
    (∀ (c' : GPUCache) (calls' : List (Int × GPUSample)),
        (∀ p ∈ calls', p.1 ≤ c'.lastGPUTimeMs + 5000) →
        gpuRunCount c' calls' = 0) ∧
    (∀ (c' : GPUCache) (t : Int) (q : GPUSample),
        gpuThrottleExpired c' t = false →
        gpuStep c' t q = (gpuCachedSample c', c')) := by
  refine ⟨?_, fun c' calls' h => gpuRunCount_zero_within_window calls' c' h, ?_⟩
  · have hlo := gpuRun_timestamp_lower_bound calls c
    have hhi := gpuRun_timestamp_upper_bound calls c (c.lastGPUTimeMs + 30000)
      (by omega) hM
    have : 5001 * gpuRunCount c calls ≤ 30000 := by omega
    omega
  · intro c' t q hq
    simp [gpuStep, hq]

/-- An all-zero GPU reading. -/
def gpuZeroSample : GPUSample := ⟨0, 0, 0⟩

/-- Witness for C2: a collector created at time 0 and polled at 2 Hz is
modelled by calls at 500 ms spacing; three early calls satisfy the
30-second hypothesis and the bound follows. -/
theorem c2_gpu_throttled_witness :
    (∀ p ∈ [((500 : Int), gpuZeroSample), ((1000 : Int), gpuZeroSample),
        ((6000 : Int), gpuZeroSample)],
      p.1 ≤ (GPUCache.mk 0 0 0 0).lastGPUTimeMs + 30000) ∧
    gpuRunCount (GPUCache.mk 0 0 0 0)
      [((500 : Int), gpuZeroSample), ((1000 : Int), gpuZeroSample),
        ((6000 : Int), gpuZeroSample)] ≤ 6 :=
  ⟨by decide,
    (c2_gpu_throttled (GPUCache.mk 0 0 0 0)
      [((500 : Int), gpuZeroSample), ((1000 : Int), gpuZeroSample),
        ((6000 : Int), gpuZeroSample)] (by decide)).1⟩

/-! ## Docker container summary (collector.go, collectDockerInfo lines 562-625) -/

/-- One container entry of the returned summary (short 12-character id). -/
structure DockerContainer where
  id : String
  name : String
  image : String
  status : String
  created : String
  deriving DecidableEq, Repr

/-- The container-runtime summary carried in `State`. -/
structure DockerInfo where
  installed : Bool
  running : Nat
  stopped : Nat
  containers : List DockerContainer
  deriving DecidableEq, Repr

/-- The JSON object decoded from one `docker ps -a --format` output line. -/
structure ContainerJSON where
  id : String
  names : String
  image : String
  state : String
  status : String
  createdAt : String
  deriving DecidableEq, Repr

/-- One line of the trimmed `docker ps` output: empty (skipped), a line on
which `json.Unmarshal` fails (skipped), or a decoded container object. -/
inductive DockerLine where
  | empty : DockerLine
  | malformed : DockerLine
  | parsed : ContainerJSON → DockerLine
  deriving DecidableEq, Repr

/-- The parsing loop of `collectDockerInfo` over the output lines.
A decoded container whose id is shorter than 12 characters makes
`container.ID[:12]` panic in Go, modelled as `none`; otherwise the entry
is appended and exactly one of the running/stopped counters is
incremented, depending on whether `State == "running"`. -/
def dockerParseLines : List DockerLine → DockerInfo → Option DockerInfo
  | [], acc => some acc
  | DockerLine.empty :: rest, acc => dockerParseLines rest acc
  | DockerLine.malformed :: rest, acc => dockerParseLines rest acc
  | DockerLine.parsed cj :: rest, acc =>
    if cj.id.length < 12 then none
    else
      let dc : DockerContainer :=
        ⟨cj.id.take 12, cj.names, cj.image, cj.status, cj.createdAt⟩
      dockerParseLines rest
        { installed := acc.installed
          running := acc.running + (if cj.state = ("running") then 1 else 0)
          stopped := acc.stopped + (if cj.state = ("running") then 0 else 1)
          containers := acc.containers ++ [dc] }

/-- `collectDockerInfo`: when the `docker` binary is not on the path, or
`docker ps -a` fails (`psOutput = none`), the not-installed default is
returned; otherwise `installed` is set and the output lines are parsed.
`none` models the Go panic on a short container id. -/
def collectDockerInfo (dockerOnPath : Bool) (psOutput : Option (List DockerLine)) :
    Option DockerInfo :=
  let base : DockerInfo := ⟨false, 0, 0, []⟩
  if dockerOnPath = false then some base
  else
    match psOutput with
    | none => some base
    | some lines =>
      dockerParseLines lines
        { installed := true, running := 0, stopped := 0, containers := [] }

/-- The running/stopped counters track the container list length through
the parsing loop. -/
theorem dockerParseLines_invariant (lines : List DockerLine)
    (acc : DockerInfo) (info : DockerInfo)
    (hacc : acc.running + acc.stopped = acc.containers.length)
    (h : dockerParseLines lines acc = some info) :
    info.running + info.stopped = info.containers.length := by
  induction lines generalizing acc with
  | nil =>
    simp only [dockerParseLines, Option.some_inj] at h
    rw [← h]; exact hacc
  | cons line rest ih =>
    cases line with
    | empty => exact ih acc hacc h
    | malformed => exact ih acc hacc h
    | parsed cj =>
      simp only [dockerParseLines] at h
      by_cases hlen : cj.id.length < 12
      · rw [if_pos hlen] at h; exact absurd h (by simp)
      · rw [if_neg hlen] at h
        refine ih _ ?_ h
        simp only [List.length_append, List.length_cons, List.length_nil]
        by_cases hrun : cj.state = ("running") <;>
          simp [hrun, hacc] <;> omega

/-- C10: every `DockerInfo` actually returned by `collectDockerInfo`
satisfies `running + stopped = containers.length`, and when the docker
binary is absent or the inventory command fails the result is exactly
`{installed := false, running := 0, stopped := 0, containers := []}`. -/
theorem c10_docker_counts (dockerOnPath : Bool)
    (psOutput : Option (List DockerLine)) (info : DockerInfo)
    (h : collectDockerInfo dockerOnPath psOutput = some info) :
    (info.running + info.stopped = info.containers.length) ∧
    (∀ out, collectDockerInfo false out = some ⟨false, 0, 0, []⟩) ∧
    (∀ path, collectDockerInfo path none = some ⟨false, 0, 0, []⟩) := by
  refine ⟨?_, fun out => rfl, fun path => ?_⟩
  · unfold collectDockerInfo at h
    by_cases hp : dockerOnPath = false
    · rw [if_pos hp, Option.some_inj] at h
      rw [← h]; rfl
    · rw [if_neg hp] at h
      cases psOutput with
      | none => simp only [Option.some_inj] at h; rw [← h]; rfl
      | some lines =>
        refine dockerParseLines_invariant lines _ info ?_ h
        rfl
  · cases path <;> rfl

/-- A concrete two-line `docker ps` output: one running container, one
exited container, one blank line. -/
def dockerDemoLines : List DockerLine :=
  [DockerLine.parsed ⟨("abcdef123456"), ("web"), ("nginx"), ("running"), ("Up 2 hours"), ("2024")⟩,
    DockerLine.empty,
    DockerLine.parsed ⟨("0123456789abcd"), ("db"), ("postgres"), ("exited"), ("Exited (0)"), ("2024")⟩]

/-- Witness for C10: on the demo output the parser returns a summary with
1 running, 1 stopped and 2 container entries, and the counter invariant
holds for it. -/
theorem c10_docker_counts_witness :
    (collectDockerInfo true (some dockerDemoLines)
      = some ((collectDockerInfo true (some dockerDemoLines)).getD ⟨false, 0, 0, []⟩)) ∧
    (((collectDockerInfo true (some dockerDemoLines)).getD ⟨false, 0, 0, []⟩).running +
        ((collectDockerInfo true (some dockerDemoLines)).getD ⟨false, 0, 0, []⟩).stopped
      = ((collectDockerInfo true (some dockerDemoLines)).getD ⟨false, 0, 0, []⟩).containers.length) :=
  ⟨by decide,
    (c10_docker_counts true (some dockerDemoLines)
      ((collectDockerInfo true (some dockerDemoLines)).getD ⟨false, 0, 0, []⟩)
      (by decide)).1⟩

/-! ## Task dispatch (main.go, handleTask lines 466-493) -/

/-- The event-name constants of main.go (shared with the server's
protocol.js). -/
def EventAgentConnect : String := "agent:connect"

/-- Outbound host-info event name. -/
def EventAgentHostInfo : String := "agent:host_info"

/-- Outbound state event name. -/
def EventAgentState : String := "agent:state"

/-- Outbound task-result event name. -/
def EventAgentTaskResult : String := "agent:task_result"

/-- Inbound authentication-accepted event name. -/
def EventDashboardAuthOK : String := "dashboard:auth_ok"

/-- Inbound authentication-rejected event name. -/
def EventDashboardAuthFail : String := "dashboard:auth_fail"

/-- Inbound task event name. -/
def EventDashboardTask : String := "dashboard:task"

/-- The result map built by `handleTask`. -/
structure TaskResult where
  id : String
  type : Int
  successful : Bool
  data : String
  delay : Int
  deriving DecidableEq, Repr

/-- `handleTask`: the result starts as `{successful: false, data: "",
delay: 0}`; type 6 forces a host-info report and type 7 is a keepalive,
both set `successful = true`; any other type stores a human-readable
message; afterwards `delay` is set to the measured elapsed milliseconds
(`elapsedMs`), and the result is emitted. -/
def handleTask (id : String) (taskType : Int) (elapsedMs : Int) : TaskResult :=
  let base : TaskResult := ⟨id, taskType, false, (""), 0⟩
  let afterSwitch : TaskResult :=
    if taskType = 6 then { base with successful := true }
    else if taskType = 7 then { base with successful := true }
    else { base with data := ("不支持的任务类型: ") ++ toString taskType }
  { afterSwitch with delay := elapsedMs }

/-- Each inbound task is dispatched in its own goroutine and always yields
exactly one result; the dispatcher never dies on an unsupported type. -/
def dispatchTasks (tasks : List (String × Int × Int)) : List TaskResult :=
  tasks.map (fun t => handleTask t.1 t.2.1 t.2.2)

/-- C7: an unsupported task type yields `successful = false` with a
non-empty human-readable message, supported types 6 and 7 yield
`successful = true`, every result carries the elapsed milliseconds of its
own execution in `delay`, and the dispatcher keeps serving subsequent
tasks (one result per inbound task, for any task list). -/
theorem c7_task_dispatch (id : String) (taskType elapsedMs : Int) :
    (taskType ≠ 6 → taskType ≠ 7 →
      (handleTask id taskType elapsedMs).successful = false ∧
      (handleTask id taskType elapsedMs).data ≠ ("")) ∧
    (taskType = 6 ∨ taskType = 7 →
      (handleTask id taskType elapsedMs).successful = true) ∧
    (handleTask id taskType elapsedMs).delay = elapsedMs ∧
    (∀ tasks : List (String × Int × Int),
      (dispatchTasks tasks).length = tasks.length) := by
  refine ⟨fun h6 h7 => ?_, fun hs => ?_, ?_, fun tasks => List.length_map _ _⟩
  · constructor
    · simp [handleTask, if_neg h6, if_neg h7]
    · simp only [handleTask, if_neg h6, if_neg h7]
      intro hdata
      have hlen := congrArg String.length hdata
      rw [String.length_append] at hlen
      have hp : ("不支持的任务类型: ").length = 10 := by decide
      have he : ("").length = 0 := rfl
      omega
  · rcases hs with h6 | h7
    · simp [handleTask, h6]
    · by_cases h6 : taskType = 6
      · simp [handleTask, h6]
      · simp [handleTask, if_neg h6, h7]
  · by_cases h6 : taskType = 6
    · simp [handleTask, h6]
    · by_cases h7 : taskType = 7
      · simp [handleTask, if_neg h6, h7]
      · simp [handleTask, if_neg h6, if_neg h7]

/-- Witness for C7 at the unknown type 9999 of the specification's test:
the result is unsuccessful, has a non-empty message and carries the
elapsed time. -/
theorem c7_task_dispatch_witness :
    ((9999 : Int) ≠ 6) ∧ ((9999 : Int) ≠ 7) ∧
    (handleTask ("t1") 9999 5).successful = false ∧
    (handleTask ("t1") 9999 5).data ≠ ("") ∧
    (handleTask ("t1") 9999 5).delay = 5 :=
  ⟨by decide, by decide,
    ((c7_task_dispatch ("t1") 9999 5).1 (by decide) (by decide)).1,
    ((c7_task_dispatch ("t1") 9999 5).1 (by decide) (by decide)).2,
    (c7_task_dispatch ("t1") 9999 5).2.2.1⟩

/-! ## Transport dial and emit (main.go, dial lines 129-224, emit 239-256) -/

/-- Outcome of one `dial` attempt: whether it returned a nil error,
whether `a.conn` was assigned (it is assigned right after the raw
websocket connects, before the upgrade/namespace steps), whether the
authentication event was sent on the connection, and the raw frames
written during the handshake. -/
structure DialResult where
  ok : Bool
  connSet : Bool
  authSent : Bool
  written : List String
  deriving DecidableEq, Repr

/-- `dial`: the HTTP handshake (`httpOk`), sid parsing (`sidOk`) and raw
websocket dial (`wsOk`) are modelled as boolean inputs; `frames` is the
sequence of frames `conn.ReadMessage` yields, exhaustion modelling a read
error.  After the websocket connects the code writes `2probe`, expects
`3probe` back, writes `5` and `40/agent,`, then reads the namespace
confirmation: a frame with prefix `40/agent` confirms it, a `2` (ping) is
answered with `3` and one more frame is read — and any other frame falls
through without an error.  In every non-error path `authenticate()` is
then called, which emits the auth event. -/
def dial (httpOk sidOk wsOk : Bool) (frames : List String) : DialResult :=
  if httpOk = false then ⟨false, false, false, []⟩
  else if sidOk = false then ⟨false, false, false, []⟩
  else if wsOk = false then ⟨false, false, false, []⟩
  else
    match frames with
    | [] => ⟨false, true, false, [("2probe")]⟩
    | f1 :: rest1 =>
      if f1 ≠ ("3probe") then ⟨false, true, false, [("2probe")]⟩
      else
        match rest1 with
        | [] => ⟨false, true, false, [("2probe"), ("5"), ("40/agent,")]⟩
        | f2 :: rest2 =>
          if f2.startsWith ("40/agent") then
            ⟨true, true, true, [("2probe"), ("5"), ("40/agent,")]⟩
          else if f2 = ("2") then
            match rest2 with
            | [] => ⟨false, true, false, [("2probe"), ("5"), ("40/agent,"), ("3")]⟩
            | _f3 :: _ =>
              ⟨true, true, true, [("2probe"), ("5"), ("40/agent,"), ("3")]⟩
          else
            ⟨true, true, true, [("2probe"), ("5"), ("40/agent,")]⟩

/-- A session is Ready in the sense of the specification's framer state
machine exactly when the whole dial sequence succeeded. -/
def sessionReady (r : DialResult) : Bool := r.ok

/-- `emit`: the only guard is `a.conn == nil`; with a connection present
the Socket.IO event frame `42/agent,<payload>` is written (the payload
stands for `json.Marshal([event, data])`). -/
def emit (connSet : Bool) (payloadJson : String) : Except String String :=
  if connSet then Except.ok (("42/agent,") ++ payloadJson)
  else Except.error ("未连接")

/-- The reconnect loop of `connect` (main.go lines 100-126), unrolled over
the outcomes of its first dial attempts: a failed dial logs and sleeps
`ReconnectDelay` before the next iteration; a successful dial runs the
message loop (the session) and, once it ends, clears `authenticated` and
also sleeps `ReconnectDelay` before reconnecting. -/
inductive ConnAction where
  | dialAttempt : ConnAction
  | sleepDelay : Int → ConnAction
  | session : ConnAction
  deriving DecidableEq, Repr

/-- Action trace of the first `outcomes.length` iterations of `connect`. -/
def connectActions (delayMs : Int) : List Bool → List ConnAction
  | [] => []
  | false :: rest =>
    ConnAction.dialAttempt :: ConnAction.sleepDelay delayMs :: connectActions delayMs rest
  | true :: rest =>
    ConnAction.dialAttempt :: ConnAction.session ::
      ConnAction.sleepDelay delayMs :: connectActions delayMs rest

/-- In the reconnect loop, two dial attempts are always separated by a
`ReconnectDelay` sleep: whenever a dial attempt follows some action, that
action is the delay sleep. -/
theorem connectActions_delay_before_redial (delayMs : Int) (outcomes : List Bool) :
    (connectActions delayMs outcomes).Chain'
      (fun a b => b = ConnAction.dialAttempt → a = ConnAction.sleepDelay delayMs) := by
  induction outcomes with
  | nil => simp [connectActions]
  | cons o rest ih =>
    cases o with
    | false =>
      simp only [connectActions]
      refine List.chain'_cons.mpr ⟨fun h => absurd h (by simp), ?_⟩
      refine List.chain'_cons'.mpr ⟨?_, ih⟩
      intro y hy hdial
      rfl
    | true =>
      simp only [connectActions]
      refine List.chain'_cons.mpr ⟨fun h => absurd h (by simp), ?_⟩
      refine List.chain'_cons.mpr ⟨fun h => absurd h (by simp), ?_⟩
      refine List.chain'_cons'.mpr ⟨?_, ih⟩
      intro y hy hdial
      rfl

/-- C4 counterexample: in a handshake whose namespace-join confirmation is
replaced by the unexpected frame "junk" (not a `40/agent` confirmation and
not a ping), `dial` nevertheless returns without error and sends the
authentication event on that connection — the attempt does not fail as
claimed. -/
theorem c4_counterexample_unexpected_frame_tolerated :
    (("junk").startsWith ("40/agent") = false) ∧ (("junk") ≠ ("2")) ∧
    (dial true true true [("3probe"), ("junk")]).ok = true ∧
    (dial true true true [("3probe"), ("junk")]).authSent = true := by
  refine ⟨?_, by decide, ?_, ?_⟩ <;> rfl

/-- C4 amended: when the namespace-join confirmation frame is missing —
the read on the connection fails, modelled by frame-list exhaustion — the
connect attempt fails without sending authentication, and the reconnect
loop only retries after a `ReconnectDelay` sleep; an unexpected (but
successfully read) frame in place of the confirmation is tolerated and
`dial` proceeds to authenticate. -/
theorem c4_missing_ns_frame_fails (frames : List String)
    (h : frames = [("3probe")] ∨ frames = [("3probe"), ("2")]) :
    ((dial true true true frames).ok = false ∧
      (dial true true true frames).authSent = false) ∧
    (∀ (delayMs : Int) (outcomes : List Bool),
      (connectActions delayMs outcomes).Chain'
        (fun a b => b = ConnAction.dialAttempt → a = ConnAction.sleepDelay delayMs)) := by
  refine ⟨?_, fun delayMs outcomes => connectActions_delay_before_redial delayMs outcomes⟩
  rcases h with h | h <;> subst h <;> exact ⟨rfl, rfl⟩

/-- Witness for the amended C4: the handshake that ends after the upgrade
confirmation (namespace frame never arrives) fails without
authentication. -/
theorem c4_missing_ns_frame_fails_witness :
    ([("3probe")] = [("3probe")] ∨ [("3probe")] = [("3probe"), ("2")]) ∧
    ((dial true true true [("3probe")]).ok = false ∧
      (dial true true true [("3probe")]).authSent = false) :=
  ⟨Or.inl rfl, (c4_missing_ns_frame_fails [("3probe")] (Or.inl rfl)).1⟩

/-- C8 counterexample: a dial attempt that dies before even the upgrade
confirmation (no frame ever arrives) leaves `a.conn` set although no
session is Ready; `emit` on that connection succeeds and writes an event
frame instead of returning an error. -/
theorem c8_counterexample_emit_when_not_ready :
    (dial true true true []).connSet = true ∧
    sessionReady (dial true true true []) = false ∧
    emit (dial true true true []).connSet ("[\"agent:state\",null]")
      = Except.ok (("42/agent,") ++ ("[\"agent:state\",null]")) := by
  exact ⟨rfl, rfl, rfl⟩

/-- C8 amended: `emit` fails exactly when no websocket connection has been
assigned (`a.conn == nil`); once the raw connection exists — whether or
not the handshake/upgrade/namespace sequence completed — it writes the
`42/agent,` event frame and reports no error. -/
theorem c8_emit_guard (payloadJson : String) :
    emit false payloadJson = Except.error ("未连接") ∧
    emit true payloadJson = Except.ok (("42/agent,") ++ payloadJson) :=
  ⟨rfl, rfl⟩

/-! ## Event handling and process lifecycle (main.go, handleEvent lines
340-375, connect lines 100-126) -/

/-- What `handleEvent` does for an inbound event name: `dashboard:auth_ok`
sets `authenticated = true` and (after the settle delay) starts the report
loop; `dashboard:auth_fail` logs and calls `os.Exit(1)`;
`dashboard:task` spawns a task handler; everything else is ignored. -/
inductive EventEffect where
  | startReporting : EventEffect
  | exitProcess : EventEffect
  | spawnTask : EventEffect
  | ignore : EventEffect
  deriving DecidableEq, Repr

/-- The dispatch switch of `handleEvent`. -/
def handleEventEffect (event : String) : EventEffect :=
  if event = EventDashboardAuthOK then EventEffect.startReporting
  else if event = EventDashboardAuthFail then EventEffect.exitProcess
  else if event = EventDashboardTask then EventEffect.spawnTask
  else EventEffect.ignore

/-- Observable process state of the agent: whether `os.Exit` has been
called, the `authenticated` flag, and how many dial attempts have been
issued so far. -/
structure ProcState where
  exited : Bool
  authenticated : Bool
  dials : Nat
  deriving DecidableEq, Repr

/-- Inputs driving the agent: an iteration of the `connect` loop issuing a
dial attempt, an inbound event handled by `handleEvent`, or the read loop
ending on a transport close (which clears `authenticated`). -/
inductive AgentInput where
  | dialAttempt : AgentInput
  | event : String → AgentInput
  | connClosed : AgentInput
  deriving DecidableEq, Repr

/-- One step of the agent: after `os.Exit` the process is gone and nothing
further happens; otherwise dial attempts count up, events act per
`handleEventEffect`, and a transport close clears `authenticated`
(connect loop lines 119-121). -/
def agentStep (s : ProcState) (i : AgentInput) : ProcState :=
  if s.exited then s
  else
    match i with
    | AgentInput.dialAttempt => { s with dials := s.dials + 1 }
    | AgentInput.event e =>
      match handleEventEffect e with
      | EventEffect.startReporting => { s with authenticated := true }
      | EventEffect.exitProcess => { s with exited := true }
      | EventEffect.spawnTask => s
      | EventEffect.ignore => s
    | AgentInput.connClosed => { s with authenticated := false }

/-- The agent driven over a whole input sequence. -/
def agentRun (s : ProcState) : List AgentInput → ProcState
  | [] => s
  | i :: rest => agentRun (agentStep s i) rest

/-- `agentRun` distributes over list append. -/
theorem agentRun_append (s : ProcState) (l1 l2 : List AgentInput) :
    agentRun s (l1 ++ l2) = agentRun (agentRun s l1) l2 := by
  induction l1 generalizing s with
  | nil => rfl
  | cons i rest ih =>
    simp only [List.cons_append, agentRun]
    exact ih _

/-- Once exited, the process stays exited and issues no further dial
attempts whatever inputs follow. -/
theorem agentRun_exited_frozen (inputs : List AgentInput) (s : ProcState)
    (h : s.exited = true) : agentRun s inputs = s := by
  induction inputs with
  | nil => rfl
  | cons i rest ih =>
    simp only [agentRun, agentStep, h, if_pos]
    exact ih

/-- C3: handling the explicit auth-rejected event `dashboard:auth_fail`
terminates the process (`os.Exit(1)`), and afterwards zero further connect
attempts are issued no matter what inputs follow; transport errors, by
contrast, are retried indefinitely — every failed dial outcome in the
`connect` loop is followed by a `ReconnectDelay` sleep and a further
iteration, one dial attempt per outcome. -/
theorem c3_auth_reject_fatal (s0 : ProcState) (pre post : List AgentInput) :
    ((agentRun s0 (pre ++ [AgentInput.event EventDashboardAuthFail])).exited = true) ∧
    ((agentRun (agentRun s0 (pre ++ [AgentInput.event EventDashboardAuthFail])) post).dials
      = (agentRun s0 (pre ++ [AgentInput.event EventDashboardAuthFail])).dials) ∧
    (∀ (delayMs : Int) (outcomes : List Bool),
      (connectActions delayMs outcomes).count ConnAction.dialAttempt
        = outcomes.length) := by
  have hexit : (agentRun s0 (pre ++ [AgentInput.event EventDashboardAuthFail])).exited
      = true := by
    rw [agentRun_append]
    set s1 := agentRun s0 pre with hs1
    show (agentRun s1 [AgentInput.event EventDashboardAuthFail]).exited = true
    by_cases he : s1.exited = true
    · simp only [agentRun, agentStep, he, if_pos]
    · have he' : s1.exited = false := by
        cases hb : s1.exited
        · rfl
        · exact absurd hb he
      simp [agentRun, agentStep, he', handleEventEffect, EventDashboardAuthFail,
        EventDashboardAuthOK]
  refine ⟨hexit, ?_, ?_⟩
  · rw [agentRun_exited_frozen post _ hexit]
  · intro delayMs outcomes
    induction outcomes with
    | nil => rfl
    | cons o rest ih =>
      cases o <;> simp [connectActions, List.count_cons, ih]

/-! ## State reporting (main.go, reportState lines 388-404, reportLoop
lines 407-434) -/

/-- The two tickers of `reportLoop`: the fast `stateTicker` and the slow
`hostInfoTicker`. -/
inductive Tick where
  | fast : Tick
  | slow : Tick
  deriving DecidableEq, Repr

/-- Events the loop emits on the wire. -/
inductive Emitted where
  | stateEv : Emitted
  | hostInfoEv : Emitted
  deriving DecidableEq, Repr

/-- `reportState`: reads `authenticated` under the mutex and returns
without writing anything when it is false; otherwise collects a `State`
snapshot and emits the state event. -/
def reportState (authenticated : Bool) : Option Emitted :=
  if authenticated then some Emitted.stateEv else none

/-- The `for`/`select` body of `reportLoop` over a sequence of ticks, each
paired with the value the `authenticated` flag has while that tick is
handled: a fast tick runs `reportState` (which checks the flag), a slow
tick runs `reportHostInfo` (which does not); after either tick the loop
re-reads the flag and returns when it is false. -/
def loopTicks : List (Tick × Bool) → List Emitted
  | [] => []
  | (Tick.fast, auth) :: rest =>
    (match reportState auth with
      | some e => [e]
      | none => []) ++ (if auth then loopTicks rest else [])
  | (Tick.slow, auth) :: rest =>
    Emitted.hostInfoEv :: (if auth then loopTicks rest else [])

/-- `reportLoop`: one immediate `reportState` (with the flag value at
entry), then the ticker loop. -/
def reportLoop (entryAuth : Bool) (ticks : List (Tick × Bool)) : List Emitted :=
  (match reportState entryAuth with
    | some e => [e]
    | none => []) ++ loopTicks ticks

/-- C6: `reportState` writes no state event when `authenticated` is false;
the report loop stops at the first tick that finds the flag false — every
tick after it is ignored, so the tickers stop emitting after that first
tick; and the only event that (re)starts reporting is `dashboard:auth_ok`,
whose handling sets `authenticated = true` in the live process. -/
theorem c6_no_report_unauthenticated (pre post : List (Tick × Bool)) (t : Tick)
    (hpre : ∀ p ∈ pre, p.2 = true) :
    (reportState false = none) ∧
    (loopTicks (pre ++ (t, false) :: post) = loopTicks (pre ++ [(t, false)])) ∧
    (∀ e, handleEventEffect e = EventEffect.startReporting ↔ e = EventDashboardAuthOK) ∧
    (∀ s : ProcState, s.exited = false →
      (agentStep s (AgentInput.event EventDashboardAuthOK)).authenticated = true) := by
  refine ⟨rfl, ?_, ?_, ?_⟩
  · induction pre with
    | nil =>
      cases t <;> simp [loopTicks, reportState]
    | cons p rest ih =>
      obtain ⟨pt, pa⟩ := p
      have hpa : pa = true := hpre (pt, pa) (List.mem_cons_self _ _)
      subst hpa
      have hrest : ∀ p ∈ rest, p.2 = true :=
        fun p hp => hpre p (List.mem_cons_of_mem _ hp)
      cases pt <;> simp [loopTicks, reportState, ih hrest]
  · intro e
    constructor
    · intro h
      by_cases he : e = EventDashboardAuthOK
      · exact he
      · exfalso
        simp only [handleEventEffect, if_neg he] at h
        by_cases hf : e = EventDashboardAuthFail
        · rw [if_pos hf] at h; exact absurd h (by decide)
        · rw [if_neg hf] at h
          by_cases ht : e = EventDashboardTask
          · rw [if_pos ht] at h; exact absurd h (by decide)
          · rw [if_neg ht] at h; exact absurd h (by decide)
    · intro he
      subst he
      rfl
  · intro s hs
    simp [agentStep, hs, handleEventEffect, EventDashboardAuthOK]

/-- Witness for C6: with one authenticated fast tick before the flag
drops, the loop emits exactly the events up to the dropping tick and
ignores everything after it. -/
theorem c6_no_report_unauthenticated_witness :
    (∀ p ∈ [(Tick.fast, true)], p.2 = true) ∧
    (loopTicks ([(Tick.fast, true)] ++ (Tick.slow, false) :: [(Tick.fast, true)])
      = loopTicks ([(Tick.fast, true)] ++ [(Tick.slow, false)])) :=
  ⟨by decide,
    (c6_no_report_unauthenticated [(Tick.fast, true)] [(Tick.fast, true)]
      Tick.slow (by decide)).2.1⟩

/-! ## Server-side memory metrics parsing
(modules/server-management/agent-service.js, processMetrics lines 83-98) -/

/-- Digits-to-number conversion as `parseInt` performs on a digit-only
match group. -/
def natOfDigits (ds : List Char) : Nat :=
  ds.foldl (fun n c => n * 10 + (c.toNat - 48)) 0

/-- Try the regex `(\d+)\/(\d+)` anchored at the current position: a
maximal nonempty digit run, a literal slash, another nonempty digit run.
(For this pattern, greedy matching without backtracking is exact: if the
maximal first run is not followed by a slash, no shorter nonempty prefix
is either, since it would be followed by a digit.) -/
def matchMemAt (cs : List Char) : Option (Nat × Nat) :=
  let p1 := cs.span Char.isDigit
  if p1.1 = [] then none
  else
    match p1.2 with
    | '/' :: rest2 =>
      let p2 := rest2.span Char.isDigit
      if p2.1 = [] then none
      else some (natOfDigits p1.1, natOfDigits p2.1)
    | _ => none

/-- Leftmost match of `(\d+)\/(\d+)` in the string, as
`String.prototype.match` finds it. -/
def findMemMatch : List Char → Option (Nat × Nat)
  | [] => none
  | c :: rest =>
    match matchMemAt (c :: rest) with
    | some r => some r
    | none => findMemMatch rest

/-- `Math.round((used / total) * 100)`: JavaScript rounds half toward
positive infinity; on these nonnegative rationals that is
`floor(x + 1/2)` (float arithmetic idealized as exact rationals). -/
def memUsagePercent (used total : Nat) : Nat :=
  Nat.floor ((used : ℚ) / (total : ℚ) * 100 + 1 / 2)

/-- The memory branch of `processMetrics`: match `(\d+)\/(\d+)` against
the mem string; on a match, `used` and `total` are the parsed groups and
`usage` is the rounded percentage (0 when `total` is 0); otherwise all
three stay 0. -/
def processMetricsMem (mem : String) : Nat × Nat × Nat :=
  match findMemMatch mem.data with
  | none => (0, 0, 0)
  | some (u, t) => (u, t, if 0 < t then memUsagePercent u t else 0)

/-- C9: the input "512/2048MB" parses to used = 512, total = 2048 and a
rounded usage percentage of 25. -/
theorem c9_mem_parse_512_2048 :
    processMetricsMem ("512/2048MB") = (512, 2048, 25) := by
  have hfind : findMemMatch (("512/2048MB").data) = some (512, 2048) := by decide
  have hpct : memUsagePercent 512 2048 = 25 := by
    unfold memUsagePercent
    rw [Nat.floor_eq_iff (by positivity)]
    constructor <;> norm_num
  simp only [processMetricsMem, hfind]
  rw [if_pos (by decide), hpct]
